import Mathlib

/-!
Shallow embedding of the V2A (Voice2Action) issue lifecycle, contribution
ledger, leaderboard aggregation, authority lookup, bulk operations and the
daily contribution-score job, translated from the repository's JavaScript
sources:

* `models/Issue.js` — issue schema and its three pre-save hooks;
* `models/Contribution.js` — contribution schema, `getMonthlyLeaderboard`,
  `getYearlyLeaderboard`;
* `routes/admin.js` — `PUT /api/admin/issues/:id/status` and
  `POST /api/admin/issues/bulk`;
* `routes/leaderboard.js` — `GET /api/leaderboard/monthly` user-position
  computation;
* `routes/authorities.js` — `GET /api/authorities/department/:department`
  and `POST /api/authorities/find-by-location`;
* `server.js` — the daily cron job refreshing `stats.contributionScore`.

Identifiers are MongoDB ObjectIds in the source; they are modelled as `Nat`.
Timestamps (`Date.now()`, `new Date()`) are milliseconds since the epoch,
modelled as `Nat` and passed explicitly where the source calls the clock.
Mongo's `$lookup` user enrichment (name/avatar) and `$addToSet` category
collection are presentation-only fields and are not modelled; the fields the
specification's claims quantify over (`_id`/userId, totalPoints,
totalContributions, monthly breakdown) are kept.
-/

namespace V2A

/-- Issue status enum of `models/Issue.js`. -/
inductive Status
  | pending
  | verified
  | rejected
  | assigned
  | in_progress
  | resolved
  | closed
  deriving DecidableEq, Repr

/-- Contribution type enum of `models/Contribution.js`. -/
inductive ContribType
  | issue_reported
  | issue_resolved
  | upvote_given
  | comment_added
  deriving DecidableEq, Repr

/-- One entry of an issue's embedded timeline (`models/Issue.js`).
The route handlers push entries carrying `user` (admin routes) or
`authority` (authority route); the pre-save hook pushes one with neither. -/
structure TimelineEntry where
  action : Status
  timestamp : Nat
  user : Option Nat := none
  authority : Option Nat := none
  notes : String := ""
  deriving DecidableEq, Repr

/-- JavaScript string truthiness for an optional field:
`undefined` and the empty string are falsy. -/
def strFalsy : Option String → Bool
  | none => true
  | some s => s == ""

/-- JavaScript `a || b || ''` over two optional strings. -/
def jsOrStr (a b : Option String) : String :=
  if strFalsy a then (if strFalsy b then "" else b.getD "") else a.getD ""

/-- JavaScript numeric truthiness of an optional numeric field:
`undefined` and `0` are falsy. -/
def ratFalsy : Option Rat → Bool
  | none => true
  | some q => q == 0

/-- JavaScript `Math.round(x * 100) / 100`: for the nonnegative elapsed-hours
values produced by the resolution-time hook, `Math.round` is
round-half-away-from-zero, i.e. the floor of `x + 1/2`, on nonnegative
inputs. -/
def jsRound2 (x : Rat) : Rat :=
  (((x * 100 + 1 / 2).floor : Int) : Rat) / 100

/-- An issue document (`models/Issue.js`), restricted to the fields read or
written by the embedded routes and hooks. `actualResolutionTime` defaults to
`null` (`none`). -/
structure Issue where
  id : Nat
  reporter : Nat
  category : String
  priority : String := "medium"
  status : Status := .pending
  adminNotes : Option String := none
  rejectionReason : Option String := none
  assignedTo : Option Nat := none
  estimatedResolutionTime : Option Nat := none
  actualResolutionTime : Option Rat := none
  timeline : List TimelineEntry := []
  createdAt : Nat
  updatedAt : Nat := 0
  deriving DecidableEq, Repr

/-- The `metadata` subdocument of a contribution (`models/Contribution.js`). -/
structure ContribMetadata where
  resolutionTime : Option Rat := none
  priority : Option String := none
  deriving DecidableEq, Repr

/-- A contribution-ledger document (`models/Contribution.js`). The schema
declares plain (non-unique) indexes only: nothing at the storage layer
constrains `(user, type, issue)` to be unique. -/
structure Contribution where
  user : Nat
  type : ContribType
  issue : Nat
  points : Nat
  month : Nat
  year : Nat
  category : String
  metadata : ContribMetadata := {}
  deriving DecidableEq, Repr

/-- The three `issueSchema.pre('save')` hooks of `models/Issue.js`, applied in
registration order: (1) refresh `updatedAt`; (2) if the status path is
modified on a non-new document, push a timeline entry
`{action: status, timestamp: now, notes: adminNotes || ''}`; (3) if the
status is `resolved` and `actualResolutionTime` is falsy (unset or `0`),
set it to the elapsed hours since `createdAt`, rounded via
`Math.round(x*100)/100`.

`statusModified` is mongoose's `isModified('status')` flag: assigning a value
equal to the stored one does not mark the path modified, so callers pass
`newStatus ≠ loadedStatus`. All saves modelled here are updates
(`isNew = false`). -/
def Issue.save (doc : Issue) (statusModified : Bool) (now : Nat) : Issue :=
  let doc := { doc with updatedAt := now }
  let doc :=
    if statusModified then
      { doc with timeline := doc.timeline ++
          [{ action := doc.status, timestamp := now, notes := jsOrStr doc.adminNotes none }] }
    else doc
  let elapsedHours : Rat := (((now : Int) : Rat) - ((doc.createdAt : Int) : Rat)) / 3600000
  if doc.status == .resolved && ratFalsy doc.actualResolutionTime then
    { doc with actualResolutionTime := some (jsRound2 elapsedHours) }
  else doc

/-- A status-update request body after `validateIssueStatusUpdate` succeeded
(the Joi validator checks shape only; it never reads the database). -/
structure StatusUpdateReq where
  status : Status
  adminNotes : Option String := none
  rejectionReason : Option String := none
  assignedTo : Option Nat := none
  estimatedResolutionTime : Option Nat := none

/-- Whether a notification service is registered on the app, and if so whether
its awaited `notifyIssueStatusChange` call resolves or rejects. -/
inductive Notifier
  | absent
  | ok
  | fails
  deriving DecidableEq, Repr

/-- Outcome sent to the HTTP caller. -/
inductive UpdateOutcome
  | notFound
  | ok (issue : Issue)
  | serverError
  deriving DecidableEq, Repr

/-- A resolution contribution as inserted by `Contribution.create` in the
admin status route: reporter, `issue_resolved`, 5 points, current month/year,
issue category, metadata from the saved issue. -/
def resolvedEvent (issue saved : Issue) (month year : Nat) : Contribution :=
  { user := issue.reporter
    type := .issue_resolved
    issue := issue.id
    points := 5
    month := month
    year := year
    category := issue.category
    metadata := { resolutionTime := saved.actualResolutionTime, priority := some issue.priority } }

/-- Body of `PUT /api/admin/issues/:id/status` (`routes/admin.js`) after
validation succeeded and `findById` returned `issue`. Mirrors the source
statement by statement: record `oldStatus`; assign status, adminNotes and the
conditional fields; push one timeline entry manually; `issue.save()` (running
the pre-save hooks, with the status path modified exactly when the requested
status differs from `oldStatus`); if the request is `resolved` and
`oldStatus` was not, `Contribution.create` a 5-point `issue_resolved` event —
with no lookup of the ledger; finally await the notifier if registered.
A notifier rejection is caught by the route's outer catch, which answers 500
after the save and insert have already been committed. `month`/`year` stand
for `new Date().getMonth()+1` / `getFullYear()` at the create call.

This first half, `applyStatusReq`, is the assignment phase: the field writes
and the manual `issue.timeline.push` the handler performs before calling
`issue.save()`. -/
def applyStatusReq (issue : Issue) (req : StatusUpdateReq) (actorId now : Nat) : Issue :=
  let newRejectionReason : Option String :=
    if req.status == .rejected then req.rejectionReason else issue.rejectionReason
  let newAssignedTo : Option Nat :=
    if req.status == .assigned && req.assignedTo.isSome then req.assignedTo else issue.assignedTo
  let newEstimated : Option Nat :=
    match req.estimatedResolutionTime with
    | some t => if t != 0 then some t else issue.estimatedResolutionTime
    | none => issue.estimatedResolutionTime
  let issue1 : Issue :=
    { issue with
      status := req.status, adminNotes := req.adminNotes,
      rejectionReason := newRejectionReason, assignedTo := newAssignedTo,
      estimatedResolutionTime := newEstimated }
  let manualEntry : TimelineEntry :=
    { action := req.status, timestamp := now, user := some actorId,
      notes := jsOrStr req.adminNotes req.rejectionReason }
  { issue1 with timeline := issue1.timeline ++ [manualEntry] }

/-- Continuation of `updateIssueStatus` (same route body): the document as it
stands right before `issue.save()` — status and conditional fields assigned
and the manual timeline entry pushed — then saved through the pre-save hooks,
then the conditional `Contribution.create`, then the notifier. -/
def updateIssueStatus (issue : Issue) (req : StatusUpdateReq) (actorId : Nat)
    (contribs : List Contribution) (now month year : Nat) (notifier : Notifier) :
    Issue × List Contribution × UpdateOutcome :=
  let oldStatus := issue.status
  let saved := (applyStatusReq issue req actorId now).save (req.status != oldStatus) now
  let contribs2 :=
    if req.status == .resolved && oldStatus != .resolved then
      contribs ++ [resolvedEvent issue saved month year]
    else contribs
  match notifier with
  | .fails => (saved, contribs2, .serverError)
  | _ => (saved, contribs2, .ok saved)

/-- The persisted state the admin routes operate on. -/
structure AdminState where
  issues : List Issue
  contributions : List Contribution
  deriving DecidableEq, Repr

/-- `Issue.findById`. -/
def findById (issues : List Issue) (id : Nat) : Option Issue :=
  issues.find? (fun i => i.id == id)

/-- `PUT /api/admin/issues/:id/status` at the store level: 404 when the issue
does not exist, otherwise run the handler body and persist the saved issue
and the (possibly extended) ledger. -/
def putIssueStatus (st : AdminState) (issueId : Nat) (req : StatusUpdateReq)
    (actorId now month year : Nat) (notifier : Notifier) : AdminState × UpdateOutcome :=
  match findById st.issues issueId with
  | none => (st, .notFound)
  | some issue =>
    let r := updateIssueStatus issue req actorId st.contributions now month year notifier
    ({ issues := st.issues.map (fun i => if i.id == issueId then r.1 else i),
       contributions := r.2.1 }, r.2.2)

/-- The allowed transition edges of the specification's state machine
(spec §4.1): pending→verified, pending→rejected, verified→assigned,
assigned→in_progress, in_progress→resolved, resolved→closed. Stated from the
spec's words; the source contains no such check. -/
def specAllowedEdge : Status → Status → Bool
  | .pending, .verified => true
  | .pending, .rejected => true
  | .verified, .assigned => true
  | .assigned, .in_progress => true
  | .in_progress, .resolved => true
  | .resolved, .closed => true
  | _, _ => false

/-! ### Leaderboard aggregation (`models/Contribution.js`, `routes/leaderboard.js`)

The `$group` stage of an aggregation emits one output document per distinct
key; MongoDB does not specify the order they are emitted in, and `$sort` on
`{totalPoints: -1, totalContributions: -1}` leaves documents with equal sort
keys in an unspecified relative order. The embedding fixes one permitted
behaviour: groups are enumerated in order of first appearance in the ledger,
and the sort is stable. No permitted behaviour orders equal-key documents by
userId. -/

/-- Distinct values of a list in order of first appearance (the group keys of
a `$group` stage). -/
def firstAppear (l : List Nat) : List Nat :=
  l.foldl (fun acc u => if u ∈ acc then acc else acc ++ [u]) []

/-- One output row of `getMonthlyLeaderboard`: the `$group`/`$project` fields
the claims concern (`_id` is the user id). -/
structure LeaderboardRow where
  userId : Nat
  totalPoints : Nat
  totalContributions : Nat
  deriving DecidableEq, Repr

/-- The `$sort {totalPoints: -1, totalContributions: -1}` key of
`getMonthlyLeaderboard` and `getYearlyLeaderboard` as a relation:
row `a` may come before row `b`. -/
def rowLE (a b : LeaderboardRow) : Prop :=
  a.totalPoints > b.totalPoints ∨
    (a.totalPoints = b.totalPoints ∧ a.totalContributions ≥ b.totalContributions)

instance : DecidableRel rowLE := fun a b => by
  unfold rowLE; infer_instance

instance : IsTotal LeaderboardRow rowLE := by
  constructor; intro a b; unfold rowLE; omega

instance : IsTrans LeaderboardRow rowLE := by
  constructor; intro a b c; unfold rowLE; omega

/-- The ordering the specification claims (`totalPoints` desc, then
`totalContributions` desc, then `userId` asc). Stated from the spec's words,
for comparison with the code's sort key `rowLE`. -/
def specRowLE (a b : LeaderboardRow) : Prop :=
  a.totalPoints > b.totalPoints ∨
    (a.totalPoints = b.totalPoints ∧
      (a.totalContributions > b.totalContributions ∨
        (a.totalContributions = b.totalContributions ∧ a.userId ≤ b.userId)))

instance : DecidableRel specRowLE := fun a b => by
  unfold specRowLE; infer_instance

/-- The `$match {month, year}` stage shared by the monthly pipelines. -/
def periodEvents (events : List Contribution) (month year : Nat) : List Contribution :=
  events.filter (fun e => e.month == month && e.year == year)

/-- `contributionSchema.statics.getMonthlyLeaderboard(month, year, limit)`:
match the period, group by user summing points and counting events, sort by
`{totalPoints: -1, totalContributions: -1}`, limit. -/
def getMonthlyLeaderboard (events : List Contribution) (month year limit : Nat) :
    List LeaderboardRow :=
  let matched := periodEvents events month year
  let users := firstAppear (matched.map (·.user))
  let rows := users.map (fun u =>
    let es := matched.filter (fun e => e.user == u)
    { userId := u, totalPoints := (es.map (·.points)).sum,
      totalContributions := es.length : LeaderboardRow })
  (List.insertionSort rowLE rows).take limit

/-- One output row of `getYearlyLeaderboard`; `monthlyBreakdown` is the
`$push {month, points}` accumulator, one pair per ledger event of the user in
the year, in pipeline order. -/
structure YearlyRow where
  userId : Nat
  totalPoints : Nat
  totalContributions : Nat
  monthlyBreakdown : List (Nat × Nat)
  deriving DecidableEq, Repr

/-- The same `$sort` key on yearly rows. -/
def yearlyRowLE (a b : YearlyRow) : Prop :=
  a.totalPoints > b.totalPoints ∨
    (a.totalPoints = b.totalPoints ∧ a.totalContributions ≥ b.totalContributions)

instance : DecidableRel yearlyRowLE := fun a b => by
  unfold yearlyRowLE; infer_instance

instance : IsTotal YearlyRow yearlyRowLE := by
  constructor; intro a b; unfold yearlyRowLE; omega

instance : IsTrans YearlyRow yearlyRowLE := by
  constructor; intro a b c; unfold yearlyRowLE; omega

/-- `contributionSchema.statics.getYearlyLeaderboard(year, limit)`: match the
year, group by user summing points, counting events and pushing the monthly
breakdown, sort by the same key, limit. -/
def getYearlyLeaderboard (events : List Contribution) (year limit : Nat) :
    List YearlyRow :=
  let matched := events.filter (fun e => e.year == year)
  let users := firstAppear (matched.map (·.user))
  let rows := users.map (fun u =>
    let es := matched.filter (fun e => e.user == u)
    { userId := u, totalPoints := (es.map (·.points)).sum,
      totalContributions := es.length,
      monthlyBreakdown := es.map (fun e => (e.month, e.points)) : YearlyRow })
  (List.insertionSort yearlyRowLE rows).take limit

/-- Total points of one user in one (month, year) period: the
`$match {month, year, user}` + `$group $sum` pipeline of the monthly
leaderboard route. -/
def userMonthlyPoints (events : List Contribution) (userId month year : Nat) : Nat :=
  (((periodEvents events month year).filter (fun e => e.user == userId)).map (·.points)).sum

/-- The `userPosition` payload of `GET /api/leaderboard/monthly`. -/
structure UserPosition where
  rank : Nat
  points : Nat
  deriving DecidableEq, Repr

/-- Per-user period totals: group the period's events by user (one entry per
distinct user), summing points. Feeds the rank pipeline's
`$match {totalPoints: {$gt: userPoints}}` + `$count`. -/
def periodTotals (events : List Contribution) (month year : Nat) : List (Nat × Nat) :=
  (firstAppear ((periodEvents events month year).map (·.user))).map
    (fun u => (u, userMonthlyPoints events u month year))

/-- The user-position computation of `GET /api/leaderboard/monthly`
(`routes/leaderboard.js`): if the authenticated user has no contribution in
the period, `userPosition` stays `null`; otherwise their rank is the count of
users whose period total strictly exceeds theirs, plus one (`$count` of an
empty match yields 0 via `rank[0]?.rank || 0`). -/
def monthlyUserPosition (events : List Contribution) (month year userId : Nat) :
    Option UserPosition :=
  let userEvents := (periodEvents events month year).filter (fun e => e.user == userId)
  if userEvents.isEmpty then none
  else
    let userPoints := userMonthlyPoints events userId month year
    let rank := ((periodTotals events month year).filter (fun p => p.2 > userPoints)).length + 1
    some { rank := rank, points := userPoints }

/-- The number of distinct users of a period whose total points strictly
exceed `pts` — the claim's words for the requester's rank, stated
independently of the aggregation pipeline (a Finset cardinality over the
set of users appearing in the period). -/
def usersAbove (events : List Contribution) (m y pts : Nat) : Nat :=
  (((periodEvents events m y).map (fun e => e.user)).toFinset.filter
    (fun v => userMonthlyPoints events v m y > pts)).card

/-- The data of the `GET /api/leaderboard/monthly` response the claims
concern: the leaderboard rows and the requester's position (`null` when
unauthenticated or absent from the period's ledger). -/
def monthlyLeaderboardRoute (events : List Contribution) (month year limit : Nat)
    (requester : Option Nat) : List LeaderboardRow × Option UserPosition :=
  (getMonthlyLeaderboard events month year limit,
    match requester with
    | none => none
    | some u => monthlyUserPosition events month year u)

/-! ### Authority lookup (`routes/authorities.js`) -/

/-- Authority status enum of the Authority model. -/
inductive AuthorityStatus
  | active
  | inactive
  deriving DecidableEq, Repr

/-- An authority document, restricted to the fields the lookup routes read
(`performanceMetrics.rating` is the sort key of the department route). -/
structure Authority where
  id : Nat
  department : String
  status : AuthorityStatus
  rating : Rat
  deriving DecidableEq, Repr

/-- Result of the authority lookup routes: 404 when the filter matches
nothing, otherwise the matched list. -/
inductive AuthorityLookup
  | notFound
  | ok (authorities : List Authority)
  deriving DecidableEq, Repr

/-- The `.sort({'performanceMetrics.rating': -1})` key of the department
route: authority `a` may come before `b` when its rating is at least `b`'s. -/
def authLE (a b : Authority) : Prop :=
  a.rating ≥ b.rating

instance : DecidableRel authLE := fun a b => by
  unfold authLE; infer_instance

instance : IsTotal Authority authLE := by
  constructor; intro a b; unfold authLE; exact le_total b.rating a.rating

instance : IsTrans Authority authLE := by
  constructor; intro a b c hab hbc; exact le_trans hbc hab

/-- The list computed by `GET /api/authorities/department/:department`:
active authorities of the department, sorted by `performanceMetrics.rating`
descending. -/
def deptAuthorities (auths : List Authority) (department : String) : List Authority :=
  List.insertionSort authLE
    (auths.filter (fun a => a.department == department && a.status == .active))

/-- `GET /api/authorities/department/:department` (`routes/authorities.js`):
404 when no active authority matches the department, else the sorted list. -/
def getAuthoritiesByDepartment (auths : List Authority) (department : String) :
    AuthorityLookup :=
  let found := deptAuthorities auths department
  if found.isEmpty then .notFound else .ok found

/-- `POST /api/authorities/find-by-location` (`routes/authorities.js`): filter
active authorities (restricted to `department = category` when a category is
given — JS truthiness makes an absent category no filter), take the first 5
in store order; no sort stage and no geospatial ranking. -/
def findByLocation (auths : List Authority) (category : Option String) :
    AuthorityLookup :=
  let filtered := auths.filter (fun a =>
    a.status == .active &&
      (match category with
       | some c => if c == "" then true else a.department == c
       | none => true))
  let found := filtered.take 5
  if found.isEmpty then .notFound else .ok found

/-- Number of issues currently assigned to an authority in an open working
state (`assigned` or `in_progress`): the first ranking key of the claim's
`rankCandidates`. Stated from the spec's words; the lookup routes never
compute it. -/
def openIssueCount (issues : List Issue) (authId : Nat) : Nat :=
  (issues.filter (fun i =>
    i.assignedTo == some authId && (i.status == .assigned || i.status == .in_progress))).length

/-- Necessary condition of the ordering claimed for `rankCandidates`: the
open-issue count is non-decreasing along the returned list (any tie-break
refinement of an open-count-ascending order satisfies this). -/
def openCountMonotone (issues : List Issue) (l : List Authority) : Prop :=
  List.Pairwise (fun a b => openIssueCount issues a.id ≤ openIssueCount issues b.id) l

instance (issues : List Issue) (l : List Authority) :
    Decidable (openCountMonotone issues l) := by
  unfold openCountMonotone; infer_instance

/-! ### Bulk operations (`routes/admin.js`, `POST /api/admin/issues/bulk`) -/

/-- The bulk actions accepted by `validateBulkOperation`. -/
inductive BulkAction
  | verify
  | reject
  | assign
  | delete
  deriving DecidableEq, Repr

/-- Accumulated per-item results of a bulk operation. The source pushes
objects carrying the issue id (plus action / old and new status, or a failure
reason); the embedding records the ids. -/
structure BulkResults where
  successful : List Nat := []
  failed : List Nat := []
  deriving DecidableEq, Repr

/-- One iteration of the `for (const issueId of issueIds)` loop of
`POST /api/admin/issues/bulk`: a missing issue lands in `failed`; `delete`
runs `Issue.findByIdAndDelete` unconditionally — no status precondition —
and lands in `successful`; `verify`/`reject`/`assign` set the status
unconditionally, push a timeline entry, and save (running the pre-save
hooks). Notifications are dispatched via `setImmediate` with their own
catch, so they touch neither the store nor the results. -/
def bulkStep (issues : List Issue) (results : BulkResults) (issueId : Nat)
    (action : BulkAction) (assignedTo : Option Nat) (reason : Option String)
    (actorId now : Nat) : List Issue × BulkResults :=
  match findById issues issueId with
  | none => (issues, { results with failed := results.failed ++ [issueId] })
  | some issue =>
    match action with
    | .delete =>
      (issues.filter (fun i => !(i.id == issueId)),
        { results with successful := results.successful ++ [issueId] })
    | _ =>
      let oldStatus := issue.status
      let issue1 : Issue :=
        match action with
        | .verify => { issue with status := .verified }
        | .reject => { issue with status := .rejected, rejectionReason := reason }
        | .assign => { issue with status := .assigned, assignedTo := assignedTo }
        | .delete => issue
      let entry : TimelineEntry :=
        { action := issue1.status, timestamp := now, user := some actorId,
          notes := jsOrStr reason (some "Bulk operation") }
      let issue2 : Issue := { issue1 with timeline := issue1.timeline ++ [entry] }
      let saved := issue2.save (issue1.status != oldStatus) now
      (issues.map (fun i => if i.id == issueId then saved else i),
        { results with successful := results.successful ++ [issueId] })

/-- The whole bulk loop over `issueIds`, threading the issue store and the
result accumulators. -/
def bulkOperation (issues : List Issue) (issueIds : List Nat) (action : BulkAction)
    (assignedTo : Option Nat) (reason : Option String) (actorId now : Nat) :
    List Issue × BulkResults :=
  issueIds.foldl
    (fun st issueId => bulkStep st.1 st.2 issueId action assignedTo reason actorId now)
    (issues, {})

/-! ### Daily contribution-score job (`server.js`, `cron.schedule('0 0 * * *')`) -/

/-- A user record restricted to the fields the job touches. -/
structure UserRec where
  id : Nat
  contributionScore : Nat := 0
  deriving DecidableEq, Repr

/-- The daily cron job of `server.js`: for every user, aggregate the sum of
their ledger points for the current calendar month (`month`/`year` stand for
`new Date().getMonth()+1` / `getFullYear()`) and overwrite
`stats.contributionScore` with it. -/
def updateContributionScores (users : List UserRec) (events : List Contribution)
    (month year : Nat) : List UserRec :=
  users.map (fun u => { u with contributionScore := userMonthlyPoints events u.id month year })

/-! ### Concrete scenarios for counterexamples and witnesses -/

/-- A freshly submitted issue: pending, empty timeline, created at the epoch. -/
def c1Issue : Issue := { id := 1, reporter := 7, category := "other", createdAt := 0 }

/-- Ledger/issue store before the C1 trace. -/
def c1State0 : AdminState := { issues := [c1Issue], contributions := [] }

/-- C1 trace, step 1: admin sets the status to resolved. -/
def c1State1 : AdminState :=
  (putIssueStatus c1State0 1 { status := .resolved } 9 0 1 2025 .ok).1

/-- C1 trace, step 2: admin sets the status back to verified. -/
def c1State2 : AdminState :=
  (putIssueStatus c1State1 1 { status := .verified } 9 1000 1 2025 .ok).1

/-- C1 trace, step 3: admin sets the status to resolved a second time, with an
`(7, issue_resolved, 1)` event already present in the ledger. -/
def c1Call3 : AdminState × UpdateOutcome :=
  putIssueStatus c1State2 1 { status := .resolved } 9 3600000 1 2025 .ok

/-- A pending issue for the C2 scenario. -/
def c2Issue : Issue := { id := 1, reporter := 7, category := "other", createdAt := 0 }

/-- C2 scenario: request the edge pending→resolved, which the spec's state
machine does not allow. -/
def c2Run : AdminState × UpdateOutcome :=
  putIssueStatus { issues := [c2Issue], contributions := [] } 1
    { status := .resolved } 9 0 1 2025 .ok

/-- A pending issue for the C3 scenario. -/
def c3Issue : Issue := { id := 1, reporter := 7, category := "other", createdAt := 0 }

/-- C3 scenario: one successful transition pending→verified. -/
def c3Run : Issue × List Contribution × UpdateOutcome :=
  updateIssueStatus c3Issue { status := .verified } 9 [] 100 1 2025 .ok

/-- A pending issue created at the epoch for the C4 scenario. -/
def c4Issue : Issue := { id := 1, reporter := 7, category := "other", createdAt := 0 }

/-- C4 scenario, step 1: resolved at the very moment of creation, so the
elapsed hours round to 0. -/
def c4First : Issue :=
  (updateIssueStatus c4Issue { status := .resolved } 9 [] 0 1 2025 .ok).1

/-- C4 scenario, step 2: a later save (a second resolved request one hour
later) while the issue is still resolved. -/
def c4Second : Issue :=
  (updateIssueStatus c4First { status := .resolved } 9 [] 3600000 1 2025 .ok).1

/-- A resolved issue with a nonzero stored resolution time, for the C4
witness. -/
def c4Resolved : Issue :=
  { c4Issue with status := .resolved, actualResolutionTime := some 1 }

/-- Ledger with two users tied on totalPoints and totalContributions, the
user with the larger id appearing first. -/
def c5Events : List Contribution :=
  [ { user := 2, type := .issue_reported, issue := 10, points := 5,
      month := 1, year := 2025, category := "other" },
    { user := 1, type := .issue_reported, issue := 11, points := 5,
      month := 1, year := 2025, category := "other" } ]

/-- Ledger for the C6 witness: user 1 has 5 points, user 2 has 7. -/
def c6Events : List Contribution :=
  [ { user := 2, type := .issue_reported, issue := 10, points := 7,
      month := 1, year := 2025, category := "other" },
    { user := 1, type := .issue_reported, issue := 11, points := 5,
      month := 1, year := 2025, category := "other" } ]

/-- A pending issue for the C7 scenario. -/
def c7Issue : Issue := { id := 1, reporter := 7, category := "other", createdAt := 0 }

/-- C7 scenario: the same request with a failing notifier and with a healthy
one. -/
def c7RunFails : Issue × List Contribution × UpdateOutcome :=
  updateIssueStatus c7Issue { status := .verified } 9 [] 5 1 2025 .fails

/-- C7 scenario with a healthy notifier. -/
def c7RunOk : Issue × List Contribution × UpdateOutcome :=
  updateIssueStatus c7Issue { status := .verified } 9 [] 5 1 2025 .ok

/-- Active road-maintenance authority with a low rating and no open issues. -/
def c8AuthIdle : Authority :=
  { id := 1, department := "road_maintenance", status := .active, rating := 1 }

/-- Active road-maintenance authority with a high rating and two open
issues. -/
def c8AuthBusy : Authority :=
  { id := 2, department := "road_maintenance", status := .active, rating := 5 }

/-- Issue store for the C8 scenario: two open issues assigned to authority 2,
none to authority 1. -/
def c8Issues : List Issue :=
  [ { id := 21, reporter := 3, category := "road_maintenance", createdAt := 0,
      status := .assigned, assignedTo := some 2 },
    { id := 22, reporter := 3, category := "road_maintenance", createdAt := 0,
      status := .in_progress, assignedTo := some 2 } ]

/-- A pending (non-terminal) issue for the C9 witness. -/
def c9Issue : Issue := { id := 1, reporter := 7, category := "other", createdAt := 0 }

/-- User list for the C10 witness. -/
def c10Users : List UserRec := [{ id := 7, contributionScore := 42 }]

/-- Ledger for the C10 witness: 5 points in January 2025 and 9 points in
December 2024 for user 7. -/
def c10Events : List Contribution :=
  [ { user := 7, type := .issue_resolved, issue := 1, points := 5,
      month := 1, year := 2025, category := "other" },
    { user := 7, type := .issue_reported, issue := 2, points := 9,
      month := 12, year := 2024, category := "other" } ]

/-- An out-of-period ledger event (March 2024) for the C10 witness. -/
def c10ExtraEvent : Contribution :=
  { user := 7, type := .issue_reported, issue := 9, points := 100,
    month := 3, year := 2024, category := "other" }

/-! ## Theorems -/

/-- Saving never changes the status field: the hooks only touch `updatedAt`,
`timeline` and `actualResolutionTime`. -/
theorem save_status (doc : Issue) (sm : Bool) (now : Nat) :
    (doc.save sm now).status = doc.status := by
  unfold Issue.save
  cases sm <;> simp <;> split <;> rfl

/-- The pre-save hooks append one timeline entry exactly when the status path
is modified. -/
theorem save_timeline_len (doc : Issue) (sm : Bool) (now : Nat) :
    (doc.save sm now).timeline.length = doc.timeline.length + (if sm then 1 else 0) := by
  unfold Issue.save
  cases sm <;> simp <;> split <;> simp

/-- A stored nonzero `actualResolutionTime` survives any save. -/
theorem save_art_keep (doc : Issue) (sm : Bool) (now : Nat) (q : Rat)
    (hq : doc.actualResolutionTime = some q) (h0 : q ≠ 0) :
    (doc.save sm now).actualResolutionTime = some q := by
  unfold Issue.save
  cases sm <;> simp_all [ratFalsy]

/-- On a save with a resolved status and a falsy `actualResolutionTime`, the
third hook stores the rounded elapsed hours. -/
theorem save_art_set (doc : Issue) (sm : Bool) (now : Nat)
    (h1 : doc.status = .resolved) (h2 : ratFalsy doc.actualResolutionTime = true) :
    (doc.save sm now).actualResolutionTime =
      some (jsRound2 ((((now : Int) : Rat) - ((doc.createdAt : Int) : Rat)) / 3600000)) := by
  unfold Issue.save
  cases sm <;> simp_all

/-- A save with a non-resolved status never touches `actualResolutionTime`. -/
theorem save_art_nonres (doc : Issue) (sm : Bool) (now : Nat)
    (h : doc.status ≠ .resolved) :
    (doc.save sm now).actualResolutionTime = doc.actualResolutionTime := by
  unfold Issue.save
  cases sm <;> simp_all

/-- The issue persisted by the admin status route is the applied document
saved through the hooks, independent of the notifier. -/
theorem updateIssueStatus_fst (issue : Issue) (req : StatusUpdateReq) (actorId : Nat)
    (contribs : List Contribution) (now month year : Nat) (notifier : Notifier) :
    (updateIssueStatus issue req actorId contribs now month year notifier).1 =
      (applyStatusReq issue req actorId now).save (req.status != issue.status) now := by
  cases notifier <;> rfl

/-- The ledger written by the admin status route, independent of the
notifier. -/
theorem updateIssueStatus_contribs (issue : Issue) (req : StatusUpdateReq) (actorId : Nat)
    (contribs : List Contribution) (now month year : Nat) (notifier : Notifier) :
    (updateIssueStatus issue req actorId contribs now month year notifier).2.1 =
      (if req.status == .resolved && issue.status != .resolved then
        contribs ++ [resolvedEvent issue
          ((applyStatusReq issue req actorId now).save (req.status != issue.status) now)
          month year]
      else contribs) := by
  cases notifier <;> rfl

/-- The assignment phase keeps everything the claims observe except status,
adminNotes, the conditional fields, and the one pushed timeline entry. -/
theorem applyStatusReq_timeline_len (issue : Issue) (req : StatusUpdateReq)
    (actorId now : Nat) :
    (applyStatusReq issue req actorId now).timeline.length = issue.timeline.length + 1 := by
  simp [applyStatusReq]

/-- The executable `Rat.floor` agrees with the floor of the order structure;
used to evaluate `jsRound2` on concrete inputs. -/
theorem ratFloor_eq_intFloor (q : Rat) : (q.floor : Int) = ⌊q⌋ := by
  rw [Rat.floor_def', Rat.floor_def]

/-- C1 (counterexample): drive one issue resolved → verified → resolved
through the admin status route. After the first resolution the ledger holds
one `(reporter 7, issue_resolved, issue 1)` event; the second transition to
resolved succeeds and inserts a second event with the same key — the ledger
does not keep at most one event per (user, type, issue), and an existing
event does not make the insert a no-op. -/
theorem c1_counterexample :
    (c1State1.contributions.filter
      (fun c => c.user == 7 && c.type == .issue_resolved && c.issue == 1)).length = 1 ∧
    (c1Call3.1.contributions.filter
      (fun c => c.user == 7 && c.type == .issue_resolved && c.issue == 1)).length = 2 ∧
    c1Call3.2 ≠ .notFound ∧ c1Call3.2 ≠ .serverError := by
  decide

/-- C1 (amended): the admin status route inserts an `issue_resolved` event
exactly when the requested status is resolved and the loaded status is not;
it never consults the ledger, so the insert happens even when an identical
(user, type, issue) event already exists — idempotency holds only for the
degenerate resolved→resolved case, and an issue that re-enters resolved is
double-awarded. -/
theorem c1_amended (issue : Issue) (req : StatusUpdateReq) (actorId : Nat)
    (contribs : List Contribution) (now month year : Nat) (notifier : Notifier) :
    (issue.status = .resolved ∨ req.status ≠ .resolved →
      (updateIssueStatus issue req actorId contribs now month year notifier).2.1 = contribs) ∧
    (req.status = .resolved → issue.status ≠ .resolved →
      (updateIssueStatus issue req actorId contribs now month year notifier).2.1 =
        contribs ++ [resolvedEvent issue
          (updateIssueStatus issue req actorId contribs now month year notifier).1
          month year]) := by
  rw [updateIssueStatus_contribs, updateIssueStatus_fst]
  constructor
  · rintro (h | h) <;> simp [h]
  · intro h1 h2
    simp [h1, h2, bne_iff_ne]

/-- C1 (witness): the amended theorem applied concretely — a resolved→resolved
request leaves the ledger alone, and a verified→resolved request appends the
5-point event. -/
theorem c1_amended_witness :
    (updateIssueStatus { c1Issue with status := .resolved }
      { status := .resolved } 9 [] 5 1 2025 .ok).2.1 = [] ∧
    (updateIssueStatus { c1Issue with status := .verified }
      { status := .resolved } 9 [] 5 1 2025 .ok).2.1 =
      [] ++ [resolvedEvent { c1Issue with status := .verified }
        (updateIssueStatus { c1Issue with status := .verified }
          { status := .resolved } 9 [] 5 1 2025 .ok).1 1 2025] :=
  ⟨(c1_amended { c1Issue with status := .resolved } { status := .resolved }
      9 [] 5 1 2025 .ok).1 (Or.inl rfl),
   (c1_amended { c1Issue with status := .verified } { status := .resolved }
      9 [] 5 1 2025 .ok).2 rfl (by decide)⟩

/-- C2 (counterexample): the edge pending→resolved is not in the spec's
allowed set, yet `PUT /api/admin/issues/:id/status` applies it: the call does
not fail (neither 404 nor 500), the persisted status becomes resolved and the
timeline grows — contradicting "fails with InvalidTransition and the issue's
status and timeline are left unchanged". -/
theorem c2_counterexample :
    specAllowedEdge .pending .resolved = false ∧
    c2Issue.status = .pending ∧
    c2Run.2 ≠ .notFound ∧ c2Run.2 ≠ .serverError ∧
    c2Run.1.issues.map (fun i => i.status) = [.resolved] ∧
    c2Run.1.issues.map (fun i => i.timeline.length) = [2] ∧
    c2Issue.timeline.length = 0 := by
  decide

/-- C2 (amended): the admin status route performs no transition-edge
validation at all: for every found issue and every validated request — the
requested edge allowed or not — when the notifier does not fail, the call
succeeds and the persisted status becomes exactly the requested status,
regardless of the current persisted status. No InvalidTransition outcome
exists in the code. -/
theorem c2_amended (issue : Issue) (req : StatusUpdateReq) (actorId : Nat)
    (contribs : List Contribution) (now month year : Nat) (notifier : Notifier)
    (h : notifier ≠ .fails) :
    (updateIssueStatus issue req actorId contribs now month year notifier).2.2 =
      .ok (updateIssueStatus issue req actorId contribs now month year notifier).1 ∧
    (updateIssueStatus issue req actorId contribs now month year notifier).1.status =
      req.status := by
  have hs : (updateIssueStatus issue req actorId contribs now month year notifier).1.status =
      req.status := by
    rw [updateIssueStatus_fst, save_status]
    rfl
  cases notifier with
  | fails => exact absurd rfl h
  | absent => exact ⟨rfl, hs⟩
  | ok => exact ⟨rfl, hs⟩

/-- C2 (witness): the amended theorem applied to the concrete pending→resolved
scenario with a healthy notifier. -/
theorem c2_amended_witness :
    (updateIssueStatus c2Issue { status := .resolved } 9 [] 0 1 2025 .ok).2.2 =
      .ok (updateIssueStatus c2Issue { status := .resolved } 9 [] 0 1 2025 .ok).1 ∧
    (updateIssueStatus c2Issue { status := .resolved } 9 [] 0 1 2025 .ok).1.status =
      .resolved :=
  c2_amended c2Issue { status := .resolved } 9 [] 0 1 2025 .ok (by decide)

/-- C3 (counterexample): one successful transition (pending→verified on an
issue with an empty timeline) appends TWO timeline entries — one pushed by
the route handler and one by the pre-save hook — not exactly one. -/
theorem c3_counterexample :
    c3Issue.timeline.length = 0 ∧
    c3Run.2.2 = .ok c3Run.1 ∧
    c3Run.1.timeline.length = 2 ∧
    c3Run.1.timeline.length ≠ 1 := by
  decide

/-- C3 (amended): through the admin status route, a status update appends two
timeline entries when the requested status differs from the persisted one
(the route's manual push plus the pre-save hook's push), and one entry when
it is the same (the hook does not fire because the status path is not
modified) — never exactly one per genuine transition. -/
theorem c3_amended (issue : Issue) (req : StatusUpdateReq) (actorId : Nat)
    (contribs : List Contribution) (now month year : Nat) (notifier : Notifier) :
    (updateIssueStatus issue req actorId contribs now month year notifier).1.timeline.length =
      issue.timeline.length + (if req.status = issue.status then 1 else 2) := by
  rw [updateIssueStatus_fst, save_timeline_len, applyStatusReq_timeline_len]
  by_cases h : req.status = issue.status <;> simp [h, bne_iff_ne]

/-- C4 (counterexample): an issue resolved at the moment of its creation gets
`actualResolutionTime = 0`; because the hook guards with JavaScript
truthiness (`!this.actualResolutionTime`), the zero value is treated as
unset, and a later save while the issue is resolved recomputes it — the field
is not immutable after first entry into resolved. -/
theorem c4_counterexample :
    c4First.status = .resolved ∧
    c4First.actualResolutionTime = some 0 ∧
    c4Second.actualResolutionTime = some 1 ∧
    c4Second.actualResolutionTime ≠ c4First.actualResolutionTime := by
  have hart1 : c4First.actualResolutionTime = some 0 := by
    unfold c4First
    rw [updateIssueStatus_fst,
      save_art_set (applyStatusReq c4Issue { status := .resolved } 9 0) _ _ rfl rfl]
    have hc : (applyStatusReq c4Issue { status := .resolved } 9 0).createdAt = 0 := rfl
    rw [hc]
    norm_num [jsRound2, ratFloor_eq_intFloor]
  have hart2 : c4Second.actualResolutionTime = some 1 := by
    have hf : ratFalsy
        (applyStatusReq c4First { status := .resolved } 9 3600000).actualResolutionTime =
          true := by
      show ratFalsy c4First.actualResolutionTime = true
      rw [hart1]; rfl
    unfold c4Second
    rw [updateIssueStatus_fst, save_art_set _ _ _ rfl hf]
    have hc : (applyStatusReq c4First { status := .resolved } 9 3600000).createdAt = 0 := rfl
    rw [hc]
    norm_num [jsRound2, ratFloor_eq_intFloor]
  have hstatus : c4First.status = .resolved := by
    unfold c4First
    rw [updateIssueStatus_fst, save_status]
    rfl
  refine ⟨hstatus, hart1, hart2, ?_⟩
  rw [hart1, hart2]
  simp

/-- C4 (amended): on a save with status resolved and `actualResolutionTime`
falsy (unset or zero), the hook sets it to the elapsed hours since creation
rounded to 2 decimals; a stored NONZERO value is preserved by every later
save, and saves with a non-resolved status never touch the field. The claim's
unconditional immutability fails exactly in the rounded-to-zero case. -/
theorem c4_amended (doc : Issue) (sm : Bool) (now : Nat) :
    (doc.status = .resolved → ratFalsy doc.actualResolutionTime = true →
      (doc.save sm now).actualResolutionTime =
        some (jsRound2 ((((now : Int) : Rat) - ((doc.createdAt : Int) : Rat)) / 3600000))) ∧
    (∀ q : Rat, doc.actualResolutionTime = some q → q ≠ 0 →
      (doc.save sm now).actualResolutionTime = some q) ∧
    (doc.status ≠ .resolved →
      (doc.save sm now).actualResolutionTime = doc.actualResolutionTime) := by
  exact ⟨fun h1 h2 => save_art_set doc sm now h1 h2,
    fun q hq hq0 => save_art_keep doc sm now q hq hq0,
    fun h => save_art_nonres doc sm now h⟩

/-- C4 (witness): the amended theorem applied to a resolved issue with a
nonzero stored resolution time. -/
theorem c4_amended_witness :
    (c4Resolved.save false 7200000).actualResolutionTime = some 1 :=
  (c4_amended c4Resolved false 7200000).2.1 1 rfl one_ne_zero

/-- C7 (counterexample): with the transition already saved, a notifier
failure IS surfaced to the caller: the same request answers 200 with a
healthy notifier but 500 with a failing one — the notifier's outcome affects
the result — even though the committed status change is identical in both
runs (no rollback). -/
theorem c7_counterexample :
    c7RunFails.2.2 = .serverError ∧
    c7RunOk.2.2 = .ok c7RunOk.1 ∧
    c7RunFails.2.2 ≠ c7RunOk.2.2 ∧
    c7RunFails.1.status = .verified ∧
    c7RunFails.1 = c7RunOk.1 := by
  decide

/-- C7 (amended): the persisted effects of the admin status route (saved
issue and ledger) are identical whether the notifier is absent, succeeds or
fails, and a missing notifier behaves exactly like a healthy one; but a
notifier failure changes the HTTP result from 200 to 500 — it is surfaced to
the caller, while never rolling back the committed transition. -/
theorem c7_amended (issue : Issue) (req : StatusUpdateReq) (actorId : Nat)
    (contribs : List Contribution) (now month year : Nat) :
    updateIssueStatus issue req actorId contribs now month year .absent =
      updateIssueStatus issue req actorId contribs now month year .ok ∧
    (updateIssueStatus issue req actorId contribs now month year .fails).1 =
      (updateIssueStatus issue req actorId contribs now month year .ok).1 ∧
    (updateIssueStatus issue req actorId contribs now month year .fails).2.1 =
      (updateIssueStatus issue req actorId contribs now month year .ok).2.1 ∧
    (updateIssueStatus issue req actorId contribs now month year .ok).2.2 =
      .ok (updateIssueStatus issue req actorId contribs now month year .ok).1 ∧
    (updateIssueStatus issue req actorId contribs now month year .fails).2.2 =
      .serverError :=
  ⟨rfl, rfl, rfl, rfl, rfl⟩

/-- A sorted list stays sorted after taking a prefix (the `$limit` stage). -/
theorem sorted_take_rows {r : LeaderboardRow → LeaderboardRow → Prop}
    {l : List LeaderboardRow} (h : List.Sorted r l) (n : Nat) : List.Sorted r (l.take n) :=
  List.Pairwise.sublist (List.take_sublist n l) h

/-- A sorted list of yearly rows stays sorted after taking a prefix. -/
theorem sorted_take_yearly {r : YearlyRow → YearlyRow → Prop}
    {l : List YearlyRow} (h : List.Sorted r l) (n : Nat) : List.Sorted r (l.take n) :=
  List.Pairwise.sublist (List.take_sublist n l) h

/-- C5 (counterexample): with two users tied on both totalPoints and
totalContributions, the monthly leaderboard keeps them in ledger order —
user 2 before user 1 — so the output is not sorted by the claimed
(points desc, contributions desc, userId asc) order: userId is not a
tie-break key. -/
theorem c5_counterexample :
    getMonthlyLeaderboard c5Events 1 2025 10 =
      [{ userId := 2, totalPoints := 5, totalContributions := 1 },
       { userId := 1, totalPoints := 5, totalContributions := 1 }] ∧
    ¬ List.Sorted specRowLE (getMonthlyLeaderboard c5Events 1 2025 10) := by
  decide

/-- C5 (amended): both leaderboard pipelines sort only by
`{totalPoints: -1, totalContributions: -1}`; the output is always sorted
under that key, but users tied on both keys keep their group-enumeration
order, which is unspecified by MongoDB and in particular is not
userId-ascending. -/
theorem c5_amended (events : List Contribution) (m y lim yr : Nat) :
    List.Sorted rowLE (getMonthlyLeaderboard events m y lim) ∧
    List.Sorted yearlyRowLE (getYearlyLeaderboard events yr lim) :=
  ⟨sorted_take_rows (List.sorted_insertionSort rowLE _) lim,
   sorted_take_yearly (List.sorted_insertionSort yearlyRowLE _) lim⟩

/-- Membership in the fold underlying `firstAppear`. -/
theorem mem_firstAppear_fold : ∀ (l acc : List Nat) (a : Nat),
    (a ∈ l.foldl (fun acc u => if u ∈ acc then acc else acc ++ [u]) acc) ↔ a ∈ acc ∨ a ∈ l
  | [], acc, a => by simp
  | u :: l, acc, a => by
    simp only [List.foldl_cons]
    rw [mem_firstAppear_fold l _ a]
    split
    · rename_i h
      simp only [List.mem_cons]
      constructor
      · rintro (h1 | h1)
        · exact Or.inl h1
        · exact Or.inr (Or.inr h1)
      · rintro (h1 | h2 | h2)
        · exact Or.inl h1
        · exact Or.inl (h2 ▸ h)
        · exact Or.inr h2
    · simp only [List.mem_append, List.mem_cons, List.mem_singleton]
      tauto

/-- The fold underlying `firstAppear` preserves distinctness. -/
theorem nodup_firstAppear_fold : ∀ (l acc : List Nat), acc.Nodup →
    (l.foldl (fun acc u => if u ∈ acc then acc else acc ++ [u]) acc).Nodup
  | [], _, h => h
  | u :: l, acc, h => by
    simp only [List.foldl_cons]
    split
    · exact nodup_firstAppear_fold l acc h
    · rename_i hu
      refine nodup_firstAppear_fold l _ ?_
      simp [List.nodup_append, h, hu]

/-- `firstAppear` keeps exactly the members of its input. -/
theorem mem_firstAppear (l : List Nat) (a : Nat) : a ∈ firstAppear l ↔ a ∈ l := by
  rw [firstAppear, mem_firstAppear_fold]
  simp

/-- `firstAppear` yields distinct elements: one group per user. -/
theorem nodup_firstAppear (l : List Nat) : (firstAppear l).Nodup :=
  nodup_firstAppear_fold l [] List.nodup_nil

/-- `firstAppear` spans the same set as its input. -/
theorem toFinset_firstAppear (l : List Nat) : (firstAppear l).toFinset = l.toFinset := by
  ext a
  simp [List.mem_toFinset, mem_firstAppear]

/-- Counting matching groups equals the cardinality of the matching subset of
the input's members. -/
theorem firstAppear_filter_length (l : List Nat) (p : Nat → Bool) :
    ((firstAppear l).filter p).length = (l.toFinset.filter (fun a => p a = true)).card := by
  rw [← toFinset_firstAppear]
  rw [← List.toFinset_card_of_nodup ((nodup_firstAppear l).filter p)]
  rw [List.toFinset_filter]

/-- The route's rank pipeline (group the period by user, match totals
strictly above `pts`, count) computes exactly the number of distinct users
of the period whose total exceeds `pts`. -/
theorem rank_count_eq (events : List Contribution) (m y : Nat) (pts : Nat) :
    ((periodTotals events m y).filter (fun p => p.2 > pts)).length =
      usersAbove events m y pts := by
  unfold periodTotals usersAbove
  rw [List.filter_map, List.length_map, firstAppear_filter_length]
  congr 1
  apply Finset.filter_congr
  intro v _
  simp

/-- C6: in the monthly leaderboard route, a requester with at least one
event in the period gets rank = (number of distinct users with strictly
greater totalPoints in the period) + 1 and their period points; a requester
absent from the period's ledger gets `userPosition = null`; and a period
with no ledger events at all yields an empty leaderboard and a null
position — all three total outcomes, never an error. -/
theorem c6_rank_and_empty (events : List Contribution) (m y u lim : Nat) :
    ((periodEvents events m y).filter (fun e => e.user == u) ≠ [] →
      monthlyUserPosition events m y u =
        some { rank := usersAbove events m y (userMonthlyPoints events u m y) + 1,
               points := userMonthlyPoints events u m y }) ∧
    ((periodEvents events m y).filter (fun e => e.user == u) = [] →
      monthlyUserPosition events m y u = none) ∧
    (periodEvents events m y = [] →
      monthlyLeaderboardRoute events m y lim (some u) = ([], none)) := by
  refine ⟨?_, ?_, ?_⟩
  · intro h
    simp only [monthlyUserPosition]
    rw [if_neg (by simpa [List.isEmpty_iff] using h), rank_count_eq]
  · intro h
    simp [monthlyUserPosition, h]
  · intro h
    simp [monthlyLeaderboardRoute, getMonthlyLeaderboard, monthlyUserPosition, h,
      firstAppear, List.insertionSort]

/-- C6 (witness): with user 2 at 7 points and user 1 at 5 points in
January 2025, the requester user 1 ranks second; an empty ledger yields an
empty leaderboard and a null position. -/
theorem c6_witness :
    monthlyUserPosition c6Events 1 2025 1 = some { rank := 2, points := 5 } ∧
    monthlyLeaderboardRoute [] 1 2025 10 (some 1) = ([], none) := by
  constructor
  · rw [(c6_rank_and_empty c6Events 1 2025 1 10).1 (by decide)]
    decide
  · exact (c6_rank_and_empty [] 1 2025 1 10).2.2 rfl

/-- C8 (counterexample): both road-maintenance authorities are active;
authority 2 has two open (assigned/in_progress) issues and authority 1 has
none, yet the department route returns authority 2 first because it sorts by
rating descending — the output violates the claimed open-issue-count
ascending order. -/
theorem c8_counterexample :
    getAuthoritiesByDepartment [c8AuthIdle, c8AuthBusy] "road_maintenance" =
      .ok [c8AuthBusy, c8AuthIdle] ∧
    ¬ openCountMonotone c8Issues [c8AuthBusy, c8AuthIdle] := by
  decide

/-- C8 (amended): the department route returns exactly the active
authorities of the requested department (a permutation of that filter —
so the department/active part of the claim holds), sorted by
`performanceMetrics.rating` descending, 404 when there are none; open-issue
counts and resolution rates play no part, and the route reads authorities
only — it never assigns one to an issue. -/
theorem c8_amended (auths : List Authority) (dept : String) :
    List.Perm (deptAuthorities auths dept)
      (auths.filter (fun a => a.department == dept && a.status == .active)) ∧
    List.Sorted authLE (deptAuthorities auths dept) ∧
    getAuthoritiesByDepartment auths dept =
      (if (deptAuthorities auths dept).isEmpty then .notFound
       else .ok (deptAuthorities auths dept)) :=
  ⟨List.perm_insertionSort authLE _, List.sorted_insertionSort authLE _, rfl⟩

/-- A bulk-delete step on a missing id only records a failure. -/
theorem bulkStep_delete_eq_none (issues : List Issue) (res : BulkResults) (issueId : Nat)
    (aTo : Option Nat) (reason : Option String) (actorId now : Nat)
    (h : findById issues issueId = none) :
    bulkStep issues res issueId .delete aTo reason actorId now =
      (issues, { res with failed := res.failed ++ [issueId] }) := by
  unfold bulkStep
  rw [h]

/-- A bulk-delete step on an existing id removes it from the store and
records a success. -/
theorem bulkStep_delete_eq_some (issues : List Issue) (res : BulkResults) (issueId : Nat)
    (aTo : Option Nat) (reason : Option String) (actorId now : Nat) (issue : Issue)
    (h : findById issues issueId = some issue) :
    bulkStep issues res issueId .delete aTo reason actorId now =
      (issues.filter (fun x => !(x.id == issueId)),
       { res with successful := res.successful ++ [issueId] }) := by
  unfold bulkStep
  rw [h]

/-- A bulk delete never adds issues to the store. -/
theorem bulkFold_delete_subset : ∀ (ids : List Nat) (issues : List Issue) (res : BulkResults)
    (aTo : Option Nat) (reason : Option String) (actorId now : Nat),
    ∀ s ∈ (ids.foldl
      (fun st issueId => bulkStep st.1 st.2 issueId .delete aTo reason actorId now)
      (issues, res)).1, s ∈ issues
  | [], _, _, _, _, _, _ => fun _ hs => hs
  | idh :: ids, issues, res, aTo, reason, actorId, now => by
    intro s hs
    simp only [List.foldl_cons] at hs
    cases hf : findById issues idh with
    | none =>
      rw [bulkStep_delete_eq_none issues res idh aTo reason actorId now hf] at hs
      exact bulkFold_delete_subset ids issues _ aTo reason actorId now s hs
    | some issue =>
      rw [bulkStep_delete_eq_some issues res idh aTo reason actorId now issue hf] at hs
      have := bulkFold_delete_subset ids _ _ aTo reason actorId now s hs
      exact List.mem_of_mem_filter this

/-- Once recorded, a success stays in the bulk results. -/
theorem bulkFold_successful_mono : ∀ (ids : List Nat) (issues : List Issue) (res : BulkResults)
    (aTo : Option Nat) (reason : Option String) (actorId now j : Nat),
    j ∈ res.successful →
    j ∈ (ids.foldl
      (fun st issueId => bulkStep st.1 st.2 issueId .delete aTo reason actorId now)
      (issues, res)).2.successful
  | [], _, _, _, _, _, _, _ => fun hj => hj
  | idh :: ids, issues, res, aTo, reason, actorId, now, j => by
    intro hj
    simp only [List.foldl_cons]
    cases hf : findById issues idh with
    | none =>
      rw [bulkStep_delete_eq_none issues res idh aTo reason actorId now hf]
      exact bulkFold_successful_mono ids issues _ aTo reason actorId now j hj
    | some issue =>
      rw [bulkStep_delete_eq_some issues res idh aTo reason actorId now issue hf]
      exact bulkFold_successful_mono ids _ _ aTo reason actorId now j
        (List.mem_append_left _ hj)

/-- Generalised invariant for the bulk-delete loop, over any accumulated
results. -/
theorem bulk_delete_aux : ∀ (ids : List Nat) (issues : List Issue) (res : BulkResults)
    (aTo : Option Nat) (reason : Option String) (actorId now i : Nat),
    i ∈ ids → (∃ s ∈ issues, s.id = i) →
    (∀ s ∈ (ids.foldl
      (fun st issueId => bulkStep st.1 st.2 issueId .delete aTo reason actorId now)
      (issues, res)).1, s.id ≠ i) ∧
    i ∈ (ids.foldl
      (fun st issueId => bulkStep st.1 st.2 issueId .delete aTo reason actorId now)
      (issues, res)).2.successful
  | [], _, _, _, _, _, _, _, him, _ => absurd him (List.not_mem_nil _)
  | idh :: ids, issues, res, aTo, reason, actorId, now, i, him, hex => by
    simp only [List.foldl_cons]
    by_cases hid : idh = i
    · subst hid
      obtain ⟨s, hs, hsid⟩ := hex
      cases hf : findById issues idh with
      | none =>
        exfalso
        have := List.find?_eq_none.mp hf s hs
        simp [hsid] at this
      | some issue =>
        rw [bulkStep_delete_eq_some issues res idh aTo reason actorId now issue hf]
        constructor
        · intro s' hs'
          have hmem := bulkFold_delete_subset ids _ _ aTo reason actorId now s' hs'
          have := (List.mem_filter.mp hmem).2
          simpa using this
        · exact bulkFold_successful_mono ids _ _ aTo reason actorId now idh
            (List.mem_append_right _ (List.mem_singleton.mpr rfl))
    · have him' : i ∈ ids := by
        rcases List.mem_cons.mp him with h | h
        · exact absurd h.symm hid
        · exact h
      obtain ⟨s, hs, hsid⟩ := hex
      cases hf : findById issues idh with
      | none =>
        rw [bulkStep_delete_eq_none issues res idh aTo reason actorId now hf]
        exact bulk_delete_aux ids issues _ aTo reason actorId now i him' ⟨s, hs, hsid⟩
      | some issue =>
        rw [bulkStep_delete_eq_some issues res idh aTo reason actorId now issue hf]
        refine bulk_delete_aux ids _ _ aTo reason actorId now i him' ⟨s, ?_, hsid⟩
        refine List.mem_filter.mpr ⟨hs, ?_⟩
        have hne : s.id ≠ idh := by
          rw [hsid]
          exact fun h => hid h.symm
        simp [hne]

/-- C9: for every issue id handed to the bulk route with action delete, if an
issue with that id exists in the store, it is deleted — for every current
status, including non-terminal ones such as pending, with no precondition
checked — and the id is reported among the successful items. -/
theorem c9_delete_unconditional (issues : List Issue) (ids : List Nat)
    (aTo : Option Nat) (reason : Option String) (actorId now i : Nat)
    (hmem : i ∈ ids) (hex : ∃ s ∈ issues, s.id = i) :
    (∀ s ∈ (bulkOperation issues ids .delete aTo reason actorId now).1, s.id ≠ i) ∧
    i ∈ (bulkOperation issues ids .delete aTo reason actorId now).2.successful := by
  unfold bulkOperation
  exact bulk_delete_aux ids issues {} aTo reason actorId now i hmem hex

/-- C9 (witness): deleting a pending issue (a non-terminal status) through
the bulk route removes it and reports it successful. -/
theorem c9_delete_witness :
    (∀ s ∈ (bulkOperation [c9Issue] [1] .delete none (some "spam") 9 50).1, s.id ≠ 1) ∧
    1 ∈ (bulkOperation [c9Issue] [1] .delete none (some "spam") 9 50).2.successful :=
  c9_delete_unconditional [c9Issue] [1] none (some "spam") 9 50 1 (by decide)
    ⟨c9Issue, List.mem_singleton.mpr rfl, rfl⟩

/-- C10: the daily cron job overwrites every user's cached
`stats.contributionScore` with the sum of that user's ledger points for the
current (month, year) only: every refreshed score equals the current-month
ledger total; events of any other month or year do not affect the result;
and the previously cached score (whatever it was) has no influence. -/
theorem c10_month_snapshot (users : List UserRec) (events : List Contribution) (m y : Nat) :
    (∀ u ∈ updateContributionScores users events m y,
      u.contributionScore = userMonthlyPoints events u.id m y) ∧
    (∀ e : Contribution, e.month ≠ m ∨ e.year ≠ y →
      updateContributionScores users (e :: events) m y =
        updateContributionScores users events m y) ∧
    (∀ f : Nat → Nat,
      updateContributionScores
        (users.map (fun u => { u with contributionScore := f u.id })) events m y =
        updateContributionScores users events m y) := by
  refine ⟨?_, ?_, ?_⟩
  · intro u hu
    simp only [updateContributionScores, List.mem_map] at hu
    obtain ⟨v, hv, rfl⟩ := hu
    rfl
  · intro e he
    unfold updateContributionScores
    apply List.map_congr_left
    intro u _
    have : userMonthlyPoints (e :: events) u.id m y = userMonthlyPoints events u.id m y := by
      unfold userMonthlyPoints periodEvents
      rw [List.filter_cons_of_neg]
      rcases he with h | h <;> simp [h]
    rw [this]
  · intro f
    simp only [updateContributionScores, List.map_map]
    apply List.map_congr_left
    intro u _
    rfl

/-- C10 (witness): the theorem applied concretely — a December 2024 event is
discarded by the January 2025 refresh, and user 7's refreshed score equals
their January 2025 total of 5, replacing the stale cached 42. -/
theorem c10_witness :
    updateContributionScores c10Users (c10ExtraEvent :: c10Events) 1 2025 =
      updateContributionScores c10Users c10Events 1 2025 ∧
    ∀ u ∈ updateContributionScores c10Users c10Events 1 2025,
      u.contributionScore = userMonthlyPoints c10Events u.id 1 2025 :=
  ⟨(c10_month_snapshot c10Users c10Events 1 2025).2.1 c10ExtraEvent (Or.inl (by decide)),
   (c10_month_snapshot c10Users c10Events 1 2025).1⟩

end V2A
